import Mathlib

/-!
Verification of the deployment-configuration loader and validator of the
osml-tile-server repository.

The embedding models the post-parse logic of `loadDeploymentConfig`
(`cdk/bin/load-deployment.ts`, given here as `src/unnamed/part_001`), the
reusable field validators it uses, the `NetworkConfig` / `TestConfig` value
objects, and the `DataplaneConfig` constructor with its numeric-bounds
validator (`src/unnamed/part_009`).

JSON values produced by `JSON.parse` are modelled by the inductive `JSValue`;
JavaScript numbers are modelled by `Rat` (the source performs only order
comparisons against integer literals, no arithmetic, so exact rationals are a
faithful carrier; `NaN` never arises from `JSON.parse` of the inputs the
claims quantify over).  A missing key / JS `undefined` is modelled by
`Option.none`.
-/

/-- A parsed JSON value (result of `JSON.parse`). -/
inductive JSValue where
  | null
  | bool (b : Bool)
  | num (q : Rat)
  | str (s : String)
  | arr (elems : List JSValue)
  | obj (fields : List (String × JSValue))

/-- Key lookup in a parsed JSON object.  `JSON.parse` keeps the last of
duplicate keys, hence the lookup over the reversed field list. -/
def jsLookup (fields : List (String × JSValue)) (k : String) : Option JSValue :=
  (fields.reverse.find? (fun p => p.1 == k)).map (fun p => p.2)

/-- JavaScript property access `v[k]` for the identifier keys the loader
reads.  Only objects carry such keys; the loader accesses named (non-index,
non-`length`) properties only, which are `undefined` on every other value. -/
def getField : JSValue → String → Option JSValue
  | .obj fields, k => jsLookup fields k
  | _, _ => none

/-- JavaScript `typeof` (on defined values; `typeof null` is `"object"`). -/
def jsTypeof : JSValue → String
  | .null => "object"
  | .bool _ => "boolean"
  | .num _ => "number"
  | .str _ => "string"
  | .arr _ => "object"
  | .obj _ => "object"

/-- JavaScript truthiness of a defined value. -/
def jsTruthy : JSValue → Bool
  | .null => false
  | .bool b => b
  | .num q => !(decide (q = 0))
  | .str s => !(s == "")
  | .arr _ => true
  | .obj _ => true

/-- Truthiness of a possibly-`undefined` value (`undefined` is falsy). -/
def jsTruthyOpt : Option JSValue → Bool
  | none => false
  | some v => jsTruthy v

/-- `typeof` of a possibly-`undefined` value. -/
def jsTypeofOpt : Option JSValue → String
  | none => "undefined"
  | some v => jsTypeof v

/-- Whether a value is a JS primitive (string, number, boolean) or `null` —
i.e. not an object in the JSON sense. -/
def jsIsPrimitive : JSValue → Bool
  | .null => true
  | .bool _ => true
  | .num _ => true
  | .str _ => true
  | .arr _ => false
  | .obj _ => false

/-- Whether a value is a JS number. -/
def jsIsNumber : JSValue → Bool
  | .num _ => true
  | _ => false

/-- `Array.isArray` on a possibly-`undefined` value. -/
def jsIsArrayOpt : Option JSValue → Bool
  | some (.arr _) => true
  | _ => false

/-- `.length` of an array value (only consulted after an `Array.isArray`
guard in the source). -/
def jsArrayLengthOpt : Option JSValue → Nat
  | some (.arr xs) => xs.length
  | _ => 0

/-- The facade of an object spread `{...v}` as used by the value-object
constructors; the loader only spreads values it has checked to be objects
(array-index spreading is outside every claim). -/
def spreadFields : JSValue → List (String × JSValue)
  | .obj fields => fields
  | _ => []

/-- The JavaScript `WhiteSpace`/`LineTerminator` set recognised by
`String.prototype.trim`. -/
def isJsWhitespace (c : Char) : Bool :=
  c == ' ' || c == '\t' || c == '\n' || c == '\r' ||
  c.toNat == 0xb || c.toNat == 0xc || c.toNat == 0xa0 || c.toNat == 0x1680 ||
  (0x2000 ≤ c.toNat && c.toNat ≤ 0x200a) ||
  c.toNat == 0x2028 || c.toNat == 0x2029 || c.toNat == 0x202f ||
  c.toNat == 0x205f || c.toNat == 0x3000 || c.toNat == 0xfeff

/-- Drop leading JS whitespace from a character list. -/
def dropWS (cs : List Char) : List Char := cs.dropWhile isJsWhitespace

/-- Strip leading and trailing JS whitespace from a character list. -/
def trimChars (cs : List Char) : List Char :=
  ((dropWS cs).reverse |> dropWS).reverse

/-- JavaScript `String.prototype.trim`. -/
def jsTrim (s : String) : String := ⟨trimChars s.data⟩

/-- `[0-9]` (the regex class `\d`). -/
def isDigitChar (c : Char) : Bool := '0' ≤ c && c ≤ '9'

/-- `[a-z0-9]`. -/
def isLowerAlnumChar (c : Char) : Bool :=
  ('a' ≤ c && c ≤ 'z') || ('0' ≤ c && c ≤ '9')

/-- `[a-f0-9]`. -/
def isLowerHexChar (c : Char) : Bool :=
  ('a' ≤ c && c ≤ 'f') || ('0' ≤ c && c ≤ '9')

/-- The account-id regex `^\d\x7b12\x7d$`: exactly 12 decimal digits. -/
def accountIdPattern (s : String) : Bool :=
  s.data.length == 12 && s.data.all isDigitChar

/-- Split a character list on `'-'` (every hyphen separates; empty segments
are kept, mirroring how the regex treats consecutive hyphens). -/
def splitHyphen : List Char → List (List Char)
  | [] => [[]]
  | c :: rest =>
    if c = '-' then [] :: splitHyphen rest
    else
      match splitHyphen rest with
      | seg :: segs => (c :: seg) :: segs
      | [] => [[c]]

/-- The region regex `^[a-z0-9]+-[a-z0-9]+(?:-[a-z0-9]+)*$`: two or more
nonempty lowercase-alphanumeric segments joined by single hyphens. -/
def regionPattern (s : String) : Bool :=
  let segs := splitHyphen s.data
  decide (2 ≤ segs.length) && segs.all (fun seg => !seg.isEmpty && seg.all isLowerAlnumChar)

/-- The identifier regexes `^<pre>[a-f0-9]\x7b8\x7d(?:[a-f0-9]\x7b9\x7d)?$`:
the literal prefix `p` followed by exactly 8 or exactly 17 lowercase hex
characters. -/
def hexIdPattern (p : List Char) (s : List Char) : Bool :=
  s.take p.length == p &&
    ((s.drop p.length).length == 8 || (s.drop p.length).length == 17) &&
    (s.drop p.length).all isLowerHexChar

/-- The error type thrown by the loader (`DeploymentConfigError`): a message
and an optional offending field name. -/
structure DeploymentConfigError where
  message : String
  field : Option String
deriving DecidableEq

/-- `validateStringField`: requires a string, trims it, and (when required)
rejects values that are empty after trimming.  `undefined`/`null` yield the
missing-field error when required and `""` otherwise. -/
def validateStringField (value : Option JSValue) (fieldName : String)
    (isRequired : Bool) : Except DeploymentConfigError String :=
  match value with
  | none =>
    if isRequired then
      .error ⟨"Missing required field: " ++ fieldName, some fieldName⟩
    else .ok ""
  | some .null =>
    if isRequired then
      .error ⟨"Missing required field: " ++ fieldName, some fieldName⟩
    else .ok ""
  | some (.str s) =>
    let trimmed := jsTrim s
    if isRequired && trimmed == "" then
      .error ⟨"Field '" ++ fieldName ++ "' cannot be empty or contain only whitespace",
              some fieldName⟩
    else .ok trimmed
  | some v =>
    .error ⟨"Field '" ++ fieldName ++ "' must be a string, got " ++ jsTypeof v,
            some fieldName⟩

/-- `validateBooleanField`: requires a boolean; `undefined`/`null` yield the
missing-field error when required, and `defaultValue ?? false` otherwise. -/
def validateBooleanField (value : Option JSValue) (fieldName : String)
    (isRequired : Bool) (defaultValue : Option Bool) :
    Except DeploymentConfigError Bool :=
  match value with
  | none =>
    if isRequired then
      .error ⟨"Missing required field: " ++ fieldName, some fieldName⟩
    else .ok (defaultValue.getD false)
  | some .null =>
    if isRequired then
      .error ⟨"Missing required field: " ++ fieldName, some fieldName⟩
    else .ok (defaultValue.getD false)
  | some (.bool b) => .ok b
  | some v =>
    .error ⟨"Field '" ++ fieldName ++ "' must be a boolean, got " ++ jsTypeof v,
            some fieldName⟩

/-- `validateAccountId`: exactly 12 decimal digits. -/
def validateAccountId (accountId : String) : Except DeploymentConfigError String :=
  if !(accountIdPattern accountId) then
    .error ⟨"Invalid AWS account ID format: '" ++ accountId ++
            "'. Must be exactly 12 digits.", some "account.id"⟩
  else .ok accountId

/-- `validateRegion`: the hyphenated lowercase-alphanumeric region pattern. -/
def validateRegion (region : String) : Except DeploymentConfigError String :=
  if !(regionPattern region) then
    .error ⟨"Invalid AWS region format: '" ++ region ++
            "'. Must follow pattern like 'us-east-1', 'eu-west-2', etc.",
            some "account.region"⟩
  else .ok region

/-- `validateVpcId`: `vpc-` followed by 8 or 17 lowercase hex characters. -/
def validateVpcId (vpcId : String) : Except DeploymentConfigError String :=
  if !(hexIdPattern "vpc-".data vpcId.data) then
    .error ⟨"Invalid VPC ID format: '" ++ vpcId ++
            "'. Must start with 'vpc-' followed by 8 or 17 hexadecimal characters.",
            some "config.targetVpcId"⟩
  else .ok vpcId

/-- `validateSecurityGroupId`: `sg-` followed by 8 or 17 lowercase hex
characters. -/
def validateSecurityGroupId (securityGroupId : String) :
    Except DeploymentConfigError String :=
  if !(hexIdPattern "sg-".data securityGroupId.data) then
    .error ⟨"Invalid security group ID format: '" ++ securityGroupId ++
            "'. Must start with 'sg-' followed by 8 or 17 hexadecimal characters.",
            some "vpcConfig.securityGroupId"⟩
  else .ok securityGroupId

/-- `validateSubnetId`: `subnet-` followed by 8 or 17 lowercase hex
characters. -/
def validateSubnetId (subnetId : String) : Except DeploymentConfigError String :=
  if !(hexIdPattern "subnet-".data subnetId.data) then
    .error ⟨"Invalid Subnet ID format: '" ++ subnetId ++
            "'. Must start with 'subnet-' followed by 8 or 17 hexadecimal characters.",
            some "networkConfig.targetSubnets"⟩
  else .ok subnetId

/-- The `NetworkConfig` value object: the raw supplied fields spread over the
two named defaults (`BaseConfig` is `Object.assign`; lookup is last-wins, so
appending the supplied fields after the defaults models the spread). -/
structure NetworkConfig where
  fields : List (String × JSValue)

/-- `new NetworkConfig(config)`. -/
def NetworkConfig.create (config : JSValue) : NetworkConfig :=
  ⟨[("VPC_NAME", .str "tile-server-vpc"),
    ("SECURITY_GROUP_NAME", .str "tile-server-security-group")] ++ spreadFields config⟩

/-- The `TestConfig` value object (`lib/constructs/test/test.ts`): supplied
fields merged over its five named defaults. -/
structure TestConfig where
  fields : List (String × JSValue)

/-- `new TestConfig(config)`. -/
def TestConfig.create (config : JSValue) : TestConfig :=
  ⟨[("BUILD_FROM_SOURCE", .bool false),
    ("TEST_CONTAINER_BUILD_PATH", .str "../"),
    ("TEST_CONTAINER_BUILD_TARGET", .str "integ"),
    ("TEST_CONTAINER_DOCKERFILE", .str "docker/Dockerfile.integ"),
    ("TEST_CONTAINER_URI", .str "awsosml/osml-tile-server-test:latest")] ++
   spreadFields config⟩

/-- The `TestImageryConfig` value object (`lib/constructs/test/imagery.ts`,
given as the second document of `cdk/lib/constructs/test/test.ts` lines
185-209): supplied fields merged over its two named defaults. -/
structure TestImageryConfig where
  fields : List (String × JSValue)

/-- `new TestImageryConfig(config)`. -/
def TestImageryConfig.create (config : JSValue) : TestImageryConfig :=
  ⟨[("S3_IMAGE_BUCKET_PREFIX", .str "ts-test-imagery"),
    ("S3_TEST_IMAGES_PATH", .str "../test/data/integ/")] ++
   spreadFields config⟩

/-- The validated `account` sub-record of `DeploymentConfig`. -/
structure AccountInfo where
  id : String
  region : String
  prodLike : Bool
  isAdc : Bool
deriving DecidableEq

/-- The validated `DeploymentConfig` aggregate returned by the loader.
`dataplaneConfig` is the raw object passed through opaquely. -/
structure DeploymentConfig where
  projectName : String
  account : AccountInfo
  networkConfig : Option NetworkConfig
  dataplaneConfig : Option JSValue
  deployIntegrationTests : Bool
  testImageryConfig : Option TestImageryConfig
  testConfig : Option TestConfig

/-- Lines 442-446 of the loader: validate `projectName` (the second emptiness
check is unreachable after a required string validation but is kept). -/
def projectNameStage (v : Option JSValue) : Except DeploymentConfigError String := do
  let projectName ← validateStringField v "projectName" true
  if projectName.length == 0 then
    .error ⟨"projectName cannot be empty", none⟩
  else
    pure projectName

/-- Lines 448-473 of the loader: the `account` section.  The JS guard
`!config.account || typeof config.account !== "object"` admits exactly the
truthy values of object type. -/
def accountStage (v : Option JSValue) : Except DeploymentConfigError AccountInfo :=
  if !(jsTruthyOpt v && jsTypeofOpt v == "object") then
    .error ⟨"Missing or invalid account section in deployment.json", some "account"⟩
  else do
    let a := v.getD .null
    let idTrimmed ← validateStringField (getField a "id") "account.id" true
    let accountId ← validateAccountId idTrimmed
    let regionTrimmed ← validateStringField (getField a "region") "account.region" true
    let region ← validateRegion regionTrimmed
    let prodLike ← validateBooleanField (getField a "prodLike") "account.prodLike" true none
    let isAdc ← validateBooleanField (getField a "isAdc") "account.isAdc" false (some false)
    pure ⟨accountId, region, prodLike, isAdc⟩

/-- Lines 484-489 of the loader: validate `VPC_ID`'s format when the key is
present. -/
def vpcIdCheck (nv : JSValue) : Except DeploymentConfigError Unit :=
  match getField nv "VPC_ID" with
  | some vpcRaw => do
    let s ← validateStringField (some vpcRaw) "networkConfig.VPC_ID" true
    let _ ← validateVpcId s
    pure ()
  | none => pure ()

/-- Lines 491-505 of the loader: require `TARGET_SUBNETS` to be an array when
present and validate each element's format. -/
def targetSubnetsCheck (nv : JSValue) : Except DeploymentConfigError Unit :=
  match getField nv "TARGET_SUBNETS" with
  | some ts =>
    match ts with
    | .arr subnets =>
      subnets.forM (fun subnetId => do
        let s ← validateStringField (some subnetId) "networkConfig.TARGET_SUBNETS[]" true
        let _ ← validateSubnetId s
        pure ())
    | _ =>
      .error ⟨"Field 'networkConfig.TARGET_SUBNETS' must be an array",
              some "networkConfig.TARGET_SUBNETS"⟩
  | none => pure ()

/-- Lines 507-515 of the loader: validate `SECURITY_GROUP_ID`'s format when
the key is present. -/
def securityGroupIdCheck (nv : JSValue) : Except DeploymentConfigError Unit :=
  match getField nv "SECURITY_GROUP_ID" with
  | some sgRaw => do
    let s ← validateStringField (some sgRaw) "networkConfig.SECURITY_GROUP_ID" true
    let _ ← validateSecurityGroupId s
    pure ()
  | none => pure ()

/-- Lines 517-528 of the loader: a truthy `VPC_ID` requires `TARGET_SUBNETS`
to be a nonempty array. -/
def vpcSubnetsCrossCheck (nv : JSValue) : Except DeploymentConfigError Unit :=
  if jsTruthyOpt (getField nv "VPC_ID") &&
      (!(jsTruthyOpt (getField nv "TARGET_SUBNETS")) ||
       !(jsIsArrayOpt (getField nv "TARGET_SUBNETS")) ||
       jsArrayLengthOpt (getField nv "TARGET_SUBNETS") == 0) then
    .error ⟨"When VPC_ID is provided, TARGET_SUBNETS must also be specified with at least one subnet ID",
            some "networkConfig.TARGET_SUBNETS"⟩
  else
    pure ()

/-- Lines 475-532 of the loader: the optional `networkConfig` section.  The
source guard also tests `!== null`, which truthiness already subsumes. -/
def networkConfigStage (v : Option JSValue) :
    Except DeploymentConfigError (Option NetworkConfig) :=
  if jsTruthyOpt v && jsTypeofOpt v == "object" then do
    let nv := v.getD .null
    vpcIdCheck nv
    targetSubnetsCheck nv
    securityGroupIdCheck nv
    vpcSubnetsCrossCheck nv
    pure (some (NetworkConfig.create nv))
  else
    pure none

/-- Lines 534-540 of the loader: `dataplaneConfig` is passed through opaquely
when it is a truthy object, ignored otherwise. -/
def dataplaneConfigStage (v : Option JSValue) : Option JSValue :=
  if jsTruthyOpt v && jsTypeofOpt v == "object" then v else none

/-- Lines 542-548 of the loader: `deployIntegrationTests`, optional boolean
defaulting to `true`. -/
def deployIntegrationTestsStage (v : Option JSValue) :
    Except DeploymentConfigError Bool :=
  validateBooleanField v "deployIntegrationTests" false (some true)

/-- Lines 550-562 of the loader: `testImageryConfig`, constructed only when
the integration-test gate is on and the raw value is a truthy object. -/
def testImageryConfigStage (v : Option JSValue) (deployIntegrationTests : Bool) :
    Option TestImageryConfig :=
  if deployIntegrationTests then
    match v with
    | some tv =>
      if jsTruthy tv && jsTypeof tv == "object" then
        some (TestImageryConfig.create tv)
      else none
    | none => none
  else none

/-- Lines 564-571 of the loader: `testConfig`, same gating as
`testImageryConfigStage`. -/
def testConfigStage (v : Option JSValue) (deployIntegrationTests : Bool) :
    Option TestConfig :=
  if deployIntegrationTests then
    match v with
    | some tv =>
      if jsTruthy tv && jsTypeof tv == "object" then
        some (TestConfig.create tv)
      else none
    | none => none
  else none

/-- `loadDeploymentConfig`, lines 433-594: the semantic pipeline applied to
the parsed JSON value (the final `console.log` is output-only and carries no
data flow). -/
def loadDeploymentConfigFromValue (parsed : JSValue) :
    Except DeploymentConfigError DeploymentConfig :=
  if !(jsTruthy parsed && jsTypeof parsed == "object") then
    .error ⟨"deployment.json must contain a valid JSON object", none⟩
  else do
    let projectName ← projectNameStage (getField parsed "projectName")
    let account ← accountStage (getField parsed "account")
    let networkConfig ← networkConfigStage (getField parsed "networkConfig")
    let dataplaneConfig := dataplaneConfigStage (getField parsed "dataplaneConfig")
    let deployIntegrationTests ← deployIntegrationTestsStage
      (getField parsed "deployIntegrationTests")
    let testImageryConfig := testImageryConfigStage
      (getField parsed "testImageryConfig") deployIntegrationTests
    let testConfig := testConfigStage (getField parsed "testConfig") deployIntegrationTests
    pure ⟨projectName, account, networkConfig, dataplaneConfig,
          deployIntegrationTests, testImageryConfig, testConfig⟩

/-- `loadDeploymentConfig`, lines 409-431: file acquisition and parsing.  The
file system is modelled as the optional content of `deployment.json`; the
external `JSON.parse` builtin is a parameter (`Except`'s error carries the
parser's message). -/
def loadDeploymentConfigFromFile (parseJson : String → Except String JSValue)
    (file : Option String) : Except DeploymentConfigError DeploymentConfig :=
  match file with
  | none =>
    .error ⟨"Missing deployment.json file. Please create it by copying deployment.json.example",
            none⟩
  | some rawContent =>
    match parseJson rawContent with
    | .error m => .error ⟨"Invalid JSON format in deployment.json: " ++ m, none⟩
    | .ok parsed => loadDeploymentConfigFromValue parsed

/-- The merged defaults of `DataplaneConfig` (`src/unnamed/part_009`,
constructor lines 155-180). -/
def dataplaneConfigDefaults : List (String × JSValue) :=
  [("BUILD_FROM_SOURCE", .bool false),
   ("CONTAINER_BUILD_PATH", .str "../"),
   ("CONTAINER_BUILD_TARGET", .str "tile_server"),
   ("CONTAINER_DOCKERFILE", .str "docker/Dockerfile.tile_server"),
   ("CONTAINER_URI", .str "awsosml/osml-tile-server:latest"),
   ("CW_LOGGROUP_NAME", .str "TSService"),
   ("CW_METRICS_NAMESPACE", .str "OSML"),
   ("DDB_JOB_TABLE", .str "TSJobTable"),
   ("DDB_TTL_ATTRIBUTE", .str "expire_time"),
   ("EFS_MOUNT_NAME", .str "ts-efs-volume"),
   ("ECS_CONTAINER_CPU", .num 8192),
   ("ECS_CONTAINER_MEMORY", .num 16384),
   ("ECS_CONTAINER_NAME", .str "TSContainer"),
   ("ECS_CONTAINER_PORT", .num 8080),
   ("ECS_CLUSTER_NAME", .str "TSCluster"),
   ("ECS_TASK_CPU", .num 8192),
   ("ECS_TASK_MEMORY", .num 16384),
   ("SQS_JOB_QUEUE", .str "TSJobQueue")]

/-- `typeof x === "number" ? x : 0` as used by `validateConfig`. -/
def numericOrZero (v : Option JSValue) : Rat :=
  match v with
  | some (.num q) => q
  | _ => 0

/-- `DataplaneConfig.validateConfig`, lines 188-209: the violation lines
accumulated in source order (compute bounds, then memory bounds). -/
def DataplaneConfig.validateErrors (config : List (String × JSValue)) : List String :=
  let ecsTaskCpu := numericOrZero (jsLookup config "ECS_TASK_CPU")
  let ecsTaskMemory := numericOrZero (jsLookup config "ECS_TASK_MEMORY")
  (if ecsTaskCpu < 256 then ["ECS_TASK_CPU must be at least 256 (0.25 vCPU)"] else []) ++
  (if ecsTaskCpu > 16384 then ["ECS_TASK_CPU must be at most 16384 (16 vCPU)"] else []) ++
  (if ecsTaskMemory < 512 then ["ECS_TASK_MEMORY must be at least 512 MiB"] else []) ++
  (if ecsTaskMemory > 122880 then ["ECS_TASK_MEMORY must be at most 122880 MiB (120 GB)"] else [])

/-- The `DataplaneConfig` constructor, lines 155-213: merge the supplied
fields over the defaults, then validate; on violations throw a single error
with the literal header and one line per violation. -/
def DataplaneConfig.construct (config : List (String × JSValue)) :
    Except String (List (String × JSValue)) :=
  let mergedConfig := dataplaneConfigDefaults ++ config
  let errors := DataplaneConfig.validateErrors mergedConfig
  if errors.isEmpty then .ok mergedConfig
  else .error ("Configuration validation failed:\n" ++ String.intercalate "\n" errors)

/-- Whether an `Except` computation succeeded. -/
def exOk : Except ε α → Bool
  | .ok _ => true
  | .error _ => false

/-- Substring test on character lists. -/
def listContainsSub (s pat : List Char) : Bool :=
  (List.range (s.length + 1)).any (fun i => ((s.drop i).take pat.length) == pat)

/-- Substring test on strings ("the message mentions X"). -/
def strContainsSub (s pat : String) : Bool := listContainsSub s.data pat.data

/-! ### Helper lemmas about trimming -/

theorem dropWS_idem (l : List Char) : dropWS (dropWS l) = dropWS l := by
  induction l with
  | nil => rfl
  | cons c t ih =>
    by_cases h : isJsWhitespace c = true
    · simpa [dropWS, List.dropWhile, h] using ih
    · rw [Bool.not_eq_true] at h
      simp [dropWS, List.dropWhile, h]

theorem dropWS_head_false (l : List Char) (c : Char) (t : List Char)
    (h : dropWS l = c :: t) : isJsWhitespace c = false := by
  induction l with
  | nil => simp [dropWS, List.dropWhile] at h
  | cons a l' ih =>
    by_cases hp : isJsWhitespace a = true
    · exact ih (by simpa [dropWS, List.dropWhile, hp] using h)
    · rw [Bool.not_eq_true] at hp
      have hal : a :: l' = c :: t := by simpa [dropWS, List.dropWhile, hp] using h
      cases hal
      exact hp

theorem dropWS_of_head_false (c : Char) (t : List Char)
    (h : isJsWhitespace c = false) : dropWS (c :: t) = c :: t := by
  simp [dropWS, List.dropWhile, h]

theorem trimChars_dropWS (l : List Char) : dropWS (trimChars l) = trimChars l := by
  show dropWS (dropWS (dropWS l).reverse).reverse = (dropWS (dropWS l).reverse).reverse
  cases hv : dropWS (dropWS l).reverse with
  | nil => simp [dropWS]
  | cons d v' =>
    have hsuf : dropWS (dropWS l).reverse <:+ (dropWS l).reverse := List.dropWhile_suffix _
    have hpre : (dropWS (dropWS l).reverse).reverse <+: dropWS l := by
      have h2 := List.reverse_prefix.mpr hsuf
      simpa using h2
    rw [hv] at hpre
    obtain ⟨rest, hrest⟩ := hpre
    cases hvr : (d :: v').reverse with
    | nil => simp at hvr
    | cons c t' =>
      have hu : dropWS l = c :: (t' ++ rest) := by rw [← hrest, hvr]; rfl
      exact dropWS_of_head_false c t' (dropWS_head_false l c (t' ++ rest) hu)

theorem trimChars_idem (l : List Char) : trimChars (trimChars l) = trimChars l := by
  have h1 : dropWS (trimChars l) = trimChars l := trimChars_dropWS l
  show (dropWS (dropWS (trimChars l)).reverse).reverse = trimChars l
  rw [h1]
  show (dropWS ((dropWS (dropWS l).reverse).reverse).reverse).reverse = _
  rw [List.reverse_reverse, dropWS_idem]
  rfl

theorem jsTrim_idem (s : String) : jsTrim (jsTrim s) = jsTrim s := by
  show (⟨trimChars (trimChars s.data)⟩ : String) = ⟨trimChars s.data⟩
  rw [trimChars_idem]

theorem string_ne_empty_iff (s : String) : s ≠ "" ↔ s.data ≠ [] := by
  rw [ne_eq, String.ext_iff]

theorem jsTrim_ne_empty (s : String) (h : jsTrim s ≠ "") : s ≠ "" := by
  intro he
  rw [he] at h
  exact h rfl

/-! ### Identifier-shape characterisations (spec-side predicates) -/

/-- Spec-side reading of "lowercase hexadecimal character". -/
def isLowerHexSpec (c : Char) : Prop := ('a' ≤ c ∧ c ≤ 'f') ∨ ('0' ≤ c ∧ c ≤ '9')

/-- Spec-side reading of the claimed identifier shape: the literal prefix
followed by exactly 8 or exactly 17 lowercase hex characters. -/
def idShapeSpec (p s : String) : Prop :=
  ∃ rest : List Char, s.data = p.data ++ rest ∧
    (rest.length = 8 ∨ rest.length = 17) ∧ ∀ c ∈ rest, isLowerHexSpec c

theorem isLowerHexChar_iff (c : Char) : isLowerHexChar c = true ↔ isLowerHexSpec c := by
  simp [isLowerHexChar, isLowerHexSpec]

theorem hexIdPattern_iff (p s : String) :
    hexIdPattern p.data s.data = true ↔ idShapeSpec p s := by
  unfold hexIdPattern idShapeSpec
  simp only [Bool.and_eq_true, Bool.or_eq_true, beq_iff_eq, List.all_eq_true]
  constructor
  · rintro ⟨⟨htake, hlen⟩, hall⟩
    refine ⟨s.data.drop p.data.length, ?_, ?_, ?_⟩
    · conv_lhs => rw [← List.take_append_drop p.data.length s.data]
      rw [htake]
    · rcases hlen with h | h
      · exact Or.inl h
      · exact Or.inr h
    · intro c hc
      exact (isLowerHexChar_iff c).mp (hall c hc)
  · rintro ⟨rest, hs, hlen, hall⟩
    rw [hs]
    refine ⟨⟨List.take_left _ _, ?_⟩, ?_⟩
    · rw [List.drop_left]
      rcases hlen with h | h
      · exact Or.inl h
      · exact Or.inr h
    · intro c hc
      rw [List.drop_left] at hc
      exact (isLowerHexChar_iff c).mpr (hall c hc)

/-! ### Region-shape characterisation -/

/-- Spec-side reading of "lowercase-alphanumeric character". -/
def isLowerAlnumSpec (c : Char) : Prop := ('a' ≤ c ∧ c ≤ 'z') ∨ ('0' ≤ c ∧ c ≤ '9')

/-- Join segments with single hyphens ("segments separated by hyphens"). -/
def joinHyphen : List (List Char) → List Char
  | [] => []
  | [seg] => seg
  | seg :: rest => seg ++ '-' :: joinHyphen rest

/-- Spec-side reading of the amended region shape: two or more nonempty
lowercase-alphanumeric segments separated by hyphens. -/
def regionShapeSpecTwo (s : String) : Prop :=
  ∃ segs : List (List Char), 2 ≤ segs.length ∧
    (∀ seg ∈ segs, seg ≠ [] ∧ ∀ c ∈ seg, isLowerAlnumSpec c) ∧
    s.data = joinHyphen segs

theorem isLowerAlnumChar_iff (c : Char) :
    isLowerAlnumChar c = true ↔ isLowerAlnumSpec c := by
  simp [isLowerAlnumChar, isLowerAlnumSpec]

theorem alnum_ne_hyphen (c : Char) (h : isLowerAlnumChar c = true) : c ≠ '-' := by
  intro he
  rw [he] at h
  exact absurd h (by decide)

theorem splitHyphen_ne_nil (l : List Char) : splitHyphen l ≠ [] := by
  cases l with
  | nil => simp [splitHyphen]
  | cons c rest =>
    unfold splitHyphen
    by_cases h : c = '-'
    · simp [h]
    · rw [if_neg h]
      split <;> simp

theorem joinHyphen_cons (seg : List Char) (rest : List (List Char)) (h : rest ≠ []) :
    joinHyphen (seg :: rest) = seg ++ '-' :: joinHyphen rest := by
  cases rest with
  | nil => exact absurd rfl h
  | cons a r => rfl

theorem joinHyphen_splitHyphen (l : List Char) : joinHyphen (splitHyphen l) = l := by
  induction l with
  | nil => rfl
  | cons c rest ih =>
    unfold splitHyphen
    by_cases h : c = '-'
    · rw [if_pos h, joinHyphen_cons _ _ (splitHyphen_ne_nil rest), ih]
      subst h
      rfl
    · rw [if_neg h]
      cases hs : splitHyphen rest with
      | nil => exact absurd hs (splitHyphen_ne_nil rest)
      | cons seg segs =>
        cases segs with
        | nil =>
          rw [hs] at ih
          show c :: seg = c :: rest
          rw [show joinHyphen [seg] = seg from rfl] at ih
          rw [ih]
        | cons b r =>
          rw [joinHyphen_cons (c :: seg) (b :: r) (by simp)]
          rw [hs] at ih
          rw [joinHyphen_cons seg (b :: r) (by simp)] at ih
          rw [← ih]
          rfl

theorem splitHyphen_no_hyphen (seg : List Char) (h : ∀ c ∈ seg, c ≠ '-') :
    splitHyphen seg = [seg] := by
  induction seg with
  | nil => rfl
  | cons c rest ih =>
    unfold splitHyphen
    rw [if_neg (h c (by simp)), ih (fun d hd => h d (by simp [hd]))]

theorem splitHyphen_append (seg : List Char) (h : ∀ c ∈ seg, c ≠ '-')
    (X : List Char) : splitHyphen (seg ++ '-' :: X) = seg :: splitHyphen X := by
  induction seg with
  | nil => simp [splitHyphen]
  | cons c rest ih =>
    have hstep : splitHyphen ((c :: rest) ++ '-' :: X) =
        match splitHyphen (rest ++ '-' :: X) with
        | seg :: segs => (c :: seg) :: segs
        | [] => [[c]] := by
      show splitHyphen (c :: (rest ++ '-' :: X)) = _
      rw [splitHyphen, if_neg (h c (by simp))]
    rw [hstep, ih (fun d hd => h d (by simp [hd]))]

theorem splitHyphen_joinHyphen (segs : List (List Char)) (hne : segs ≠ [])
    (h : ∀ seg ∈ segs, ∀ c ∈ seg, c ≠ '-') :
    splitHyphen (joinHyphen segs) = segs := by
  induction segs with
  | nil => exact absurd rfl hne
  | cons seg rest ih =>
    cases rest with
    | nil => exact splitHyphen_no_hyphen seg (h seg (by simp))
    | cons b r =>
      rw [joinHyphen_cons seg (b :: r) (by simp)]
      rw [splitHyphen_append seg (h seg (by simp)) _]
      rw [ih (by simp) (fun s hs c hc => h s (by simp [hs]) c hc)]

theorem regionPattern_iff (s : String) :
    regionPattern s = true ↔ regionShapeSpecTwo s := by
  unfold regionPattern regionShapeSpecTwo
  simp only [Bool.and_eq_true, List.all_eq_true, decide_eq_true_eq]
  constructor
  · rintro ⟨hlen, hall⟩
    refine ⟨splitHyphen s.data, hlen, ?_, (joinHyphen_splitHyphen s.data).symm⟩
    intro seg hseg
    have h2 := hall seg hseg
    refine ⟨?_, ?_⟩
    · intro hnil
      rw [hnil] at h2
      exact absurd h2.1 (by decide)
    · intro c hc
      exact (isLowerAlnumChar_iff c).mp (h2.2 c hc)
  · rintro ⟨segs, hlen, hsegs, hdata⟩
    have hnh : ∀ seg ∈ segs, ∀ c ∈ seg, c ≠ '-' := fun seg hs c hc =>
      alnum_ne_hyphen c ((isLowerAlnumChar_iff c).mpr ((hsegs seg hs).2 c hc))
    have hsplit : splitHyphen s.data = segs := by
      rw [hdata]
      exact splitHyphen_joinHyphen segs
        (by intro hn; rw [hn] at hlen; simp at hlen) hnh
    rw [hsplit]
    refine ⟨hlen, ?_⟩
    intro seg hseg
    refine ⟨?_, ?_⟩
    · simpa using (hsegs seg hseg).1
    · intro c hc
      exact (isLowerAlnumChar_iff c).mpr ((hsegs seg hseg).2 c hc)

/-! ### Substring-containment helper -/

theorem listContainsSub_append (a pat b : List Char) :
    listContainsSub (a ++ pat ++ b) pat = true := by
  unfold listContainsSub
  rw [List.any_eq_true]
  refine ⟨a.length, ?_, ?_⟩
  · rw [List.mem_range]
    simp only [List.length_append]
    omega
  · rw [List.append_assoc, List.drop_left, List.take_left]
    simp

theorem strContainsSub_append (a pat b : String) :
    strContainsSub (a ++ pat ++ b) pat = true := by
  unfold strContainsSub
  rw [String.data_append, String.data_append]
  exact listContainsSub_append a.data pat.data b.data

/-! ### Inversion helpers for the loader pipeline -/

theorem exceptBind_ok_eq {ε α β : Type} (x : Except ε α) (f : α → Except ε β) (b : β)
    (h : x >>= f = .ok b) : ∃ a, x = .ok a ∧ f a = .ok b := by
  cases x with
  | error e => simp [Bind.bind, Except.bind] at h
  | ok a => exact ⟨a, rfl, by simpa [Bind.bind, Except.bind] using h⟩

theorem exceptMap_ok_eq {ε α β : Type} (x : Except ε α) (f : α → β) (b : β)
    (h : (f <$> x) = .ok b) : ∃ a, x = .ok a ∧ f a = b := by
  cases x with
  | error e => simp [Functor.map, Except.map] at h
  | ok a => exact ⟨a, rfl, by simpa [Functor.map, Except.map] using h⟩

theorem loadFromValue_ok_inv (parsed : JSValue) (r : DeploymentConfig)
    (h : loadDeploymentConfigFromValue parsed = .ok r) :
    ∃ pn a nc dit,
      projectNameStage (getField parsed "projectName") = .ok pn ∧
      accountStage (getField parsed "account") = .ok a ∧
      networkConfigStage (getField parsed "networkConfig") = .ok nc ∧
      deployIntegrationTestsStage (getField parsed "deployIntegrationTests") = .ok dit ∧
      r = ⟨pn, a, nc, dataplaneConfigStage (getField parsed "dataplaneConfig"), dit,
           testImageryConfigStage (getField parsed "testImageryConfig") dit,
           testConfigStage (getField parsed "testConfig") dit⟩ := by
  unfold loadDeploymentConfigFromValue at h
  split at h
  · exact absurd h (by simp)
  · obtain ⟨pn, hpn, h⟩ := exceptBind_ok_eq _ _ _ h
    obtain ⟨a, ha, h⟩ := exceptBind_ok_eq _ _ _ h
    obtain ⟨nc, hnc, h⟩ := exceptBind_ok_eq _ _ _ h
    obtain ⟨dit, hdit, h⟩ := exceptMap_ok_eq _ _ _ h
    exact ⟨pn, a, nc, dit, hpn, ha, hnc, hdit, h.symm⟩

/-! ### Claims C3, C4 (identifier and region validators) -/

/-- C3: each of the VPC / security-group / subnet identifier validators
accepts a string iff it is the respective literal prefix (`vpc-`, `sg-`,
`subnet-`) followed by exactly 8 or exactly 17 lowercase hexadecimal
characters (so every other suffix length and every uppercase or non-hex
character is rejected), and every rejection error echoes the offending
value in its message. -/
theorem claim_C3 (s : String) :
    (exOk (validateVpcId s) = true ↔ idShapeSpec "vpc-" s) ∧
    (exOk (validateSecurityGroupId s) = true ↔ idShapeSpec "sg-" s) ∧
    (exOk (validateSubnetId s) = true ↔ idShapeSpec "subnet-" s) ∧
    (∀ e, validateVpcId s = .error e → strContainsSub e.message s = true) ∧
    (∀ e, validateSecurityGroupId s = .error e → strContainsSub e.message s = true) ∧
    (∀ e, validateSubnetId s = .error e → strContainsSub e.message s = true) := by
  refine ⟨?_, ?_, ?_, ?_, ?_, ?_⟩
  · by_cases hp : hexIdPattern "vpc-".data s.data = true
    · simp [validateVpcId, hp, exOk, (hexIdPattern_iff "vpc-" s).mp hp]
    · rw [Bool.not_eq_true] at hp
      simp only [validateVpcId, hp, Bool.not_false, if_true, exOk]
      constructor
      · intro hf; exact absurd hf (by simp)
      · intro hs
        exact absurd ((hexIdPattern_iff "vpc-" s).mpr hs) (by rw [hp]; simp)
  · by_cases hp : hexIdPattern "sg-".data s.data = true
    · simp [validateSecurityGroupId, hp, exOk, (hexIdPattern_iff "sg-" s).mp hp]
    · rw [Bool.not_eq_true] at hp
      simp only [validateSecurityGroupId, hp, Bool.not_false, if_true, exOk]
      constructor
      · intro hf; exact absurd hf (by simp)
      · intro hs
        exact absurd ((hexIdPattern_iff "sg-" s).mpr hs) (by rw [hp]; simp)
  · by_cases hp : hexIdPattern "subnet-".data s.data = true
    · simp [validateSubnetId, hp, exOk, (hexIdPattern_iff "subnet-" s).mp hp]
    · rw [Bool.not_eq_true] at hp
      simp only [validateSubnetId, hp, Bool.not_false, if_true, exOk]
      constructor
      · intro hf; exact absurd hf (by simp)
      · intro hs
        exact absurd ((hexIdPattern_iff "subnet-" s).mpr hs) (by rw [hp]; simp)
  · intro e he
    unfold validateVpcId at he
    split at he
    · injection he with h2
      subst h2
      exact strContainsSub_append "Invalid VPC ID format: '" s
        "'. Must start with 'vpc-' followed by 8 or 17 hexadecimal characters."
    · exact absurd he (by simp)
  · intro e he
    unfold validateSecurityGroupId at he
    split at he
    · injection he with h2
      subst h2
      exact strContainsSub_append "Invalid security group ID format: '" s
        "'. Must start with 'sg-' followed by 8 or 17 hexadecimal characters."
    · exact absurd he (by simp)
  · intro e he
    unfold validateSubnetId at he
    split at he
    · injection he with h2
      subst h2
      exact strContainsSub_append "Invalid Subnet ID format: '" s
        "'. Must start with 'subnet-' followed by 8 or 17 hexadecimal characters."
    · exact absurd he (by simp)

/-- C3 witness: the theorem applied at the accepted id `vpc-12345678` and at
the rejected id `vpc-xyz` (whose error echoes the value). -/
theorem claim_C3_witness :
    idShapeSpec "vpc-" "vpc-12345678" ∧
    strContainsSub
      (DeploymentConfigError.message
        ⟨"Invalid VPC ID format: '" ++ "vpc-xyz" ++
         "'. Must start with 'vpc-' followed by 8 or 17 hexadecimal characters.",
         some "config.targetVpcId"⟩) "vpc-xyz" = true :=
  ⟨(claim_C3 "vpc-12345678").1.mp rfl,
   (claim_C3 "vpc-xyz").2.2.2.1 _ rfl⟩

instance (c : Char) : Decidable (isLowerAlnumSpec c) := by
  unfold isLowerAlnumSpec
  infer_instance

/-- The claim's literal reading of the region shape: one or more nonempty
lowercase-alphanumeric segments separated by hyphens. -/
def regionShapeSpecOne (s : String) : Prop :=
  ∃ segs : List (List Char), 1 ≤ segs.length ∧
    (∀ seg ∈ segs, seg ≠ [] ∧ ∀ c ∈ seg, isLowerAlnumSpec c) ∧
    s.data = joinHyphen segs

/-- C4 counterexample: `"useast1"` is a single lowercase-alphanumeric segment
(so the claim says it is accepted), yet `validateRegion` rejects it — the
regex requires at least one hyphen. -/
theorem claim_C4_counterexample :
    regionShapeSpecOne "useast1" ∧ exOk (validateRegion "useast1") = false := by
  constructor
  · refine ⟨[['u', 's', 'e', 'a', 's', 't', '1']], by decide, by decide, by decide⟩
  · rfl

/-- C4 amended: the region validator accepts `s` iff `s` consists of TWO or
more lowercase-alphanumeric segments separated by hyphens; in particular a
single segment with no hyphen (e.g. `"useast1"`) is rejected. -/
theorem claim_C4 (s : String) :
    exOk (validateRegion s) = true ↔ regionShapeSpecTwo s := by
  by_cases hp : regionPattern s = true
  · simp [validateRegion, hp, exOk, (regionPattern_iff s).mp hp]
  · rw [Bool.not_eq_true] at hp
    simp only [validateRegion, hp, Bool.not_false, if_true, exOk]
    constructor
    · intro hf; exact absurd hf (by simp)
    · intro hs
      exact absurd ((regionPattern_iff s).mpr hs) (by rw [hp]; simp)

/-- C4 witness: the amended theorem applied at the two-segment region
`us-west-2`. -/
theorem claim_C4_witness : regionShapeSpecTwo "us-west-2" :=
  (claim_C4 "us-west-2").mp rfl

/-! ### Claim C7 (string trimming) -/

/-- C7: `validateStringField` stores string values trimmed of leading and
trailing whitespace, judges emptiness of required fields after trimming
(whitespace-only fails with the `cannot be empty or contain only whitespace`
error), and is idempotent on already-stored values. -/
theorem claim_C7 (s fieldName : String) (req : Bool) :
    (∀ r, validateStringField (some (.str s)) fieldName req = .ok r → r = jsTrim s) ∧
    (jsTrim s = "" →
      validateStringField (some (.str s)) fieldName true =
        .error ⟨"Field '" ++ fieldName ++ "' cannot be empty or contain only whitespace",
                some fieldName⟩) ∧
    (∀ r, validateStringField (some (.str s)) fieldName req = .ok r →
      validateStringField (some (.str r)) fieldName req = .ok r) := by
  refine ⟨?_, ?_, ?_⟩
  · intro r hr
    simp only [validateStringField] at hr
    split at hr
    · exact absurd hr (by simp)
    · injection hr with h2
      exact h2.symm
  · intro he
    simp only [validateStringField]
    have hbe : (jsTrim s == "") = true := by rw [beq_iff_eq]; exact he
    simp [hbe]
  · intro r hr
    simp only [validateStringField] at hr
    split at hr
    · exact absurd hr (by simp)
    · rename_i hcond
      injection hr with h2
      subst h2
      simp only [validateStringField]
      rw [jsTrim_idem]
      rw [if_neg hcond]

/-- C7 witness: the theorem applied at `"  x  "` (stored as `"x"`, and
re-validating `"x"` returns it unchanged) and at the whitespace-only
`"   "` (required validation fails with the claimed message). -/
theorem claim_C7_witness :
    validateStringField (some (.str "   ")) "projectName" true =
      .error ⟨"Field '" ++ "projectName" ++ "' cannot be empty or contain only whitespace",
              some "projectName"⟩ ∧
    (("x" : String) = jsTrim "  x  ") ∧
    validateStringField (some (.str "x")) "projectName" true = .ok "x" :=
  ⟨(claim_C7 "   " "projectName" true).2.1 rfl,
   (claim_C7 "  x  " "projectName" true).1 "x" rfl,
   (claim_C7 "  x  " "projectName" true).2.2 "x" rfl⟩

/-! ### Claim C8 (determinism of the loader) -/

/-- C8: the loader is a deterministic function of the file bytes — running it
twice over byte-identical content yields deeply equal results.  In the
embedding the loader is a pure function of the (deterministically parsed)
file content; the source holds no module-level mutable state. -/
theorem claim_C8 (parseJson : String → Except String JSValue)
    (content1 content2 : Option String) (h : content1 = content2) :
    loadDeploymentConfigFromFile parseJson content1 =
      loadDeploymentConfigFromFile parseJson content2 ∧
    (loadDeploymentConfigFromFile parseJson content1,
     loadDeploymentConfigFromFile parseJson content2) =
    (loadDeploymentConfigFromFile parseJson content1,
     loadDeploymentConfigFromFile parseJson content1) := by
  subst h
  exact ⟨rfl, rfl⟩

/-- C8 witness: the theorem applied at a concrete parser and content. -/
theorem claim_C8_witness :
    loadDeploymentConfigFromFile (fun _ => .ok (.obj [])) (some "x") =
      loadDeploymentConfigFromFile (fun _ => .ok (.obj [])) (some "x") :=
  (claim_C8 (fun _ => .ok (.obj [])) (some "x") (some "x") rfl).1

/-! ### Claims C2, C10 (DataplaneConfig numeric-bounds validation) -/

/-- C2: when the merged `ECS_TASK_CPU` and `ECS_TASK_MEMORY` values are
numbers, `DataplaneConfig` construction succeeds iff `256 ≤ cpu ≤ 16384` and
`512 ≤ mem ≤ 122880` (all bounds inclusive); on violation it throws exactly
one error whose message is the literal header `Configuration validation
failed:` followed by one line per violation, in the fixed order compute
violations then memory violations, aggregating every violation. -/
theorem claim_C2 (config : List (String × JSValue)) (cpu mem : Rat)
    (hcpu : jsLookup (dataplaneConfigDefaults ++ config) "ECS_TASK_CPU" = some (.num cpu))
    (hmem : jsLookup (dataplaneConfigDefaults ++ config) "ECS_TASK_MEMORY" = some (.num mem)) :
    (exOk (DataplaneConfig.construct config) = true ↔
      (256 ≤ cpu ∧ cpu ≤ 16384 ∧ 512 ≤ mem ∧ mem ≤ 122880)) ∧
    (∀ e, DataplaneConfig.construct config = .error e →
      e = "Configuration validation failed:\n" ++ String.intercalate "\n"
        ((if cpu < 256 then ["ECS_TASK_CPU must be at least 256 (0.25 vCPU)"] else []) ++
         (if cpu > 16384 then ["ECS_TASK_CPU must be at most 16384 (16 vCPU)"] else []) ++
         (if mem < 512 then ["ECS_TASK_MEMORY must be at least 512 MiB"] else []) ++
         (if mem > 122880 then ["ECS_TASK_MEMORY must be at most 122880 MiB (120 GB)"] else []))) := by
  have herr : DataplaneConfig.validateErrors (dataplaneConfigDefaults ++ config) =
      (if cpu < 256 then ["ECS_TASK_CPU must be at least 256 (0.25 vCPU)"] else []) ++
      (if cpu > 16384 then ["ECS_TASK_CPU must be at most 16384 (16 vCPU)"] else []) ++
      (if mem < 512 then ["ECS_TASK_MEMORY must be at least 512 MiB"] else []) ++
      (if mem > 122880 then ["ECS_TASK_MEMORY must be at most 122880 MiB (120 GB)"] else []) := by
    unfold DataplaneConfig.validateErrors
    rw [hcpu, hmem]
    rfl
  have hempty :
      ((if cpu < 256 then ["ECS_TASK_CPU must be at least 256 (0.25 vCPU)"] else []) ++
       (if cpu > 16384 then ["ECS_TASK_CPU must be at most 16384 (16 vCPU)"] else []) ++
       (if mem < 512 then ["ECS_TASK_MEMORY must be at least 512 MiB"] else []) ++
       (if mem > 122880 then ["ECS_TASK_MEMORY must be at most 122880 MiB (120 GB)"] else [])).isEmpty
        = true ↔ (256 ≤ cpu ∧ cpu ≤ 16384 ∧ 512 ≤ mem ∧ mem ≤ 122880) := by
    rw [List.isEmpty_iff]
    constructor
    · intro hnil
      split_ifs at hnil <;>
        first
        | exact ⟨not_lt.mp (by assumption), not_lt.mp (by assumption),
                 not_lt.mp (by assumption), not_lt.mp (by assumption)⟩
        | simp at hnil
    · intro hb
      have h1 : ¬(cpu < 256) := not_lt.mpr hb.1
      have h2 : ¬(cpu > 16384) := not_lt.mpr hb.2.1
      have h3 : ¬(mem < 512) := not_lt.mpr hb.2.2.1
      have h4 : ¬(mem > 122880) := not_lt.mpr hb.2.2.2
      simp [h1, h2, h3, h4]
  constructor
  · simp only [DataplaneConfig.construct]
    rw [herr]
    by_cases hE :
        ((if cpu < 256 then ["ECS_TASK_CPU must be at least 256 (0.25 vCPU)"] else []) ++
         (if cpu > 16384 then ["ECS_TASK_CPU must be at most 16384 (16 vCPU)"] else []) ++
         (if mem < 512 then ["ECS_TASK_MEMORY must be at least 512 MiB"] else []) ++
         (if mem > 122880 then ["ECS_TASK_MEMORY must be at most 122880 MiB (120 GB)"] else [])).isEmpty
          = true
    · rw [if_pos hE]
      exact iff_of_true rfl (hempty.mp hE)
    · rw [if_neg hE]
      exact iff_of_false (by simp [exOk]) (fun hb => hE (hempty.mpr hb))
  · intro e he
    simp only [DataplaneConfig.construct] at he
    rw [herr] at he
    by_cases hE :
        ((if cpu < 256 then ["ECS_TASK_CPU must be at least 256 (0.25 vCPU)"] else []) ++
         (if cpu > 16384 then ["ECS_TASK_CPU must be at most 16384 (16 vCPU)"] else []) ++
         (if mem < 512 then ["ECS_TASK_MEMORY must be at least 512 MiB"] else []) ++
         (if mem > 122880 then ["ECS_TASK_MEMORY must be at most 122880 MiB (120 GB)"] else [])).isEmpty
          = true
    · rw [if_pos hE] at he
      exact absurd he (by simp)
    · rw [if_neg hE] at he
      injection he with h2
      exact h2.symm

/-- C2 witness: the theorem applied to a configuration violating both lower
bounds (`cpu = 128`, `mem = 256`); the single aggregated message equals the
header followed by both `must be at least` lines. -/
theorem claim_C2_witness :
    ("Configuration validation failed:\nECS_TASK_CPU must be at least 256 (0.25 vCPU)\nECS_TASK_MEMORY must be at least 512 MiB" : String) =
      "Configuration validation failed:\n" ++ String.intercalate "\n"
        ((if (128 : Rat) < 256 then ["ECS_TASK_CPU must be at least 256 (0.25 vCPU)"] else []) ++
         (if (128 : Rat) > 16384 then ["ECS_TASK_CPU must be at most 16384 (16 vCPU)"] else []) ++
         (if (256 : Rat) < 512 then ["ECS_TASK_MEMORY must be at least 512 MiB"] else []) ++
         (if (256 : Rat) > 122880 then ["ECS_TASK_MEMORY must be at most 122880 MiB (120 GB)"] else [])) :=
  (claim_C2 [("ECS_TASK_CPU", .num 128), ("ECS_TASK_MEMORY", .num 256)]
    128 256 rfl rfl).2 _ rfl

/-- C10: whenever the merged `ECS_TASK_CPU` (resp. `ECS_TASK_MEMORY`) value
is not a number, `validateConfig` treats it as 0, so construction always
fails with that field's `must be at least` line, never with its
`must be at most` line; a non-numeric sizing value can never yield a
successful construction. -/
theorem claim_C10 (config : List (String × JSValue)) :
    (∀ v, jsLookup (dataplaneConfigDefaults ++ config) "ECS_TASK_CPU" = some v →
      jsIsNumber v = false →
      "ECS_TASK_CPU must be at least 256 (0.25 vCPU)" ∈
        DataplaneConfig.validateErrors (dataplaneConfigDefaults ++ config) ∧
      "ECS_TASK_CPU must be at most 16384 (16 vCPU)" ∉
        DataplaneConfig.validateErrors (dataplaneConfigDefaults ++ config) ∧
      exOk (DataplaneConfig.construct config) = false) ∧
    (∀ v, jsLookup (dataplaneConfigDefaults ++ config) "ECS_TASK_MEMORY" = some v →
      jsIsNumber v = false →
      "ECS_TASK_MEMORY must be at least 512 MiB" ∈
        DataplaneConfig.validateErrors (dataplaneConfigDefaults ++ config) ∧
      "ECS_TASK_MEMORY must be at most 122880 MiB (120 GB)" ∉
        DataplaneConfig.validateErrors (dataplaneConfigDefaults ++ config) ∧
      exOk (DataplaneConfig.construct config) = false) := by
  have hzero : ∀ v, jsIsNumber v = false → numericOrZero (some v) = 0 := by
    intro v hv
    cases v <;> simp [jsIsNumber] at hv ⊢ <;> rfl
  constructor
  · intro v hl hv
    have herr : DataplaneConfig.validateErrors (dataplaneConfigDefaults ++ config) =
        ["ECS_TASK_CPU must be at least 256 (0.25 vCPU)"] ++ [] ++
        (if numericOrZero (jsLookup (dataplaneConfigDefaults ++ config) "ECS_TASK_MEMORY") < 512
          then ["ECS_TASK_MEMORY must be at least 512 MiB"] else []) ++
        (if numericOrZero (jsLookup (dataplaneConfigDefaults ++ config) "ECS_TASK_MEMORY") > 122880
          then ["ECS_TASK_MEMORY must be at most 122880 MiB (120 GB)"] else []) := by
      unfold DataplaneConfig.validateErrors
      rw [hl, hzero v hv]
      norm_num
    refine ⟨?_, ?_, ?_⟩
    · rw [herr]; simp
    · rw [herr]
      intro hmem
      rcases List.mem_append.mp hmem with h | h
      · rcases List.mem_append.mp h with h2 | h2
        · rcases List.mem_append.mp h2 with h3 | h3
          · exact absurd h3 (by decide)
          · simp at h3
        · revert h2
          split <;> intro h2
          · exact absurd h2 (by decide)
          · simp at h2
      · revert h
        split <;> intro h
        · exact absurd h (by decide)
        · simp at h
    · simp only [DataplaneConfig.construct]
      rw [herr]
      simp [exOk]
  · intro v hl hv
    have herr : DataplaneConfig.validateErrors (dataplaneConfigDefaults ++ config) =
        (if numericOrZero (jsLookup (dataplaneConfigDefaults ++ config) "ECS_TASK_CPU") < 256
          then ["ECS_TASK_CPU must be at least 256 (0.25 vCPU)"] else []) ++
        (if numericOrZero (jsLookup (dataplaneConfigDefaults ++ config) "ECS_TASK_CPU") > 16384
          then ["ECS_TASK_CPU must be at most 16384 (16 vCPU)"] else []) ++
        ["ECS_TASK_MEMORY must be at least 512 MiB"] ++ [] := by
      unfold DataplaneConfig.validateErrors
      rw [hl, hzero v hv]
      norm_num
    refine ⟨?_, ?_, ?_⟩
    · rw [herr]; simp
    · rw [herr]
      intro hmem
      rcases List.mem_append.mp hmem with h | h
      · rcases List.mem_append.mp h with h2 | h2
        · rcases List.mem_append.mp h2 with h3 | h3
          · revert h3
            split <;> intro h3
            · exact absurd h3 (by decide)
            · simp at h3
          · revert h3
            split <;> intro h3
            · exact absurd h3 (by decide)
            · simp at h3
        · exact absurd h2 (by decide)
      · simp at h
    · simp only [DataplaneConfig.construct]
      rw [herr]
      simp [exOk]

/-- C10 witness: the theorem applied to a configuration whose
`ECS_TASK_CPU` is the numeric string `"1024"` (not a JS number). -/
theorem claim_C10_witness :
    "ECS_TASK_CPU must be at least 256 (0.25 vCPU)" ∈
      DataplaneConfig.validateErrors
        (dataplaneConfigDefaults ++ [("ECS_TASK_CPU", .str "1024")]) ∧
    "ECS_TASK_CPU must be at most 16384 (16 vCPU)" ∉
      DataplaneConfig.validateErrors
        (dataplaneConfigDefaults ++ [("ECS_TASK_CPU", .str "1024")]) ∧
    exOk (DataplaneConfig.construct [("ECS_TASK_CPU", .str "1024")]) = false :=
  (claim_C10 [("ECS_TASK_CPU", .str "1024")]).1 (.str "1024") rfl rfl

/-! ### Stage-evaluation helpers -/

theorem exceptBind_ok {ε α β : Type} (a : α) (f : α → Except ε β) :
    (Except.ok a : Except ε α) >>= f = f a := rfl

theorem exceptMap_ok {ε α β : Type} (a : α) (f : α → β) :
    (f <$> (Except.ok a : Except ε α)) = Except.ok (f a) := rfl

theorem accountIdPattern_ne_empty (s : String) (h : accountIdPattern s = true) :
    s ≠ "" := by
  intro he
  rw [he] at h
  exact absurd h (by decide)

theorem regionPattern_ne_empty (s : String) (h : regionPattern s = true) :
    s ≠ "" := by
  intro he
  rw [he] at h
  exact absurd h (by decide)

theorem validateStringField_str_ok (s fieldName : String) (req : Bool)
    (h : jsTrim s ≠ "") :
    validateStringField (some (.str s)) fieldName req = .ok (jsTrim s) := by
  simp only [validateStringField]
  have hbe : (jsTrim s == "") = false := by rw [beq_eq_false_iff_ne]; exact h
  rw [hbe, Bool.and_false]
  rfl

theorem string_length_bne_zero (s : String) (h : s ≠ "") : (s.length == 0) = false := by
  rw [beq_eq_false_iff_ne]
  intro h0
  exact (string_ne_empty_iff s).mp h (List.length_eq_zero.mp h0)

theorem projectNameStage_str (s : String) (h : jsTrim s ≠ "") :
    projectNameStage (some (.str s)) = .ok (jsTrim s) := by
  simp only [projectNameStage]
  rw [validateStringField_str_ok s "projectName" true h, exceptBind_ok]
  rw [string_length_bne_zero _ h]
  rfl

theorem accountStage_eval (idS regS : String) (b : Bool)
    (hid : accountIdPattern (jsTrim idS) = true)
    (hreg : regionPattern (jsTrim regS) = true) :
    accountStage (some (.obj [("id", .str idS), ("region", .str regS),
      ("prodLike", .bool b)])) = .ok ⟨jsTrim idS, jsTrim regS, b, false⟩ := by
  have hidne := accountIdPattern_ne_empty _ hid
  have hregne := regionPattern_ne_empty _ hreg
  simp only [accountStage]
  rw [if_neg (by simp [jsTruthyOpt, jsTruthy, jsTypeofOpt, jsTypeof])]
  simp only [Option.getD]
  rw [show getField (JSValue.obj [("id", .str idS), ("region", .str regS),
        ("prodLike", .bool b)]) "id" = some (.str idS) from rfl]
  rw [validateStringField_str_ok idS "account.id" true hidne, exceptBind_ok]
  rw [show validateAccountId (jsTrim idS) = .ok (jsTrim idS) from by
        simp [validateAccountId, hid]]
  rw [exceptBind_ok]
  rw [show getField (JSValue.obj [("id", .str idS), ("region", .str regS),
        ("prodLike", .bool b)]) "region" = some (.str regS) from rfl]
  rw [validateStringField_str_ok regS "account.region" true hregne, exceptBind_ok]
  rw [show validateRegion (jsTrim regS) = .ok (jsTrim regS) from by
        simp [validateRegion, hreg]]
  rw [exceptBind_ok]
  rw [show getField (JSValue.obj [("id", .str idS), ("region", .str regS),
        ("prodLike", .bool b)]) "prodLike" = some (.bool b) from rfl]
  rw [show validateBooleanField (some (JSValue.bool b)) "account.prodLike" true none
        = .ok b from rfl]
  rw [exceptBind_ok]
  rfl

theorem networkConfigStage_none : networkConfigStage none = .ok none := rfl

theorem jsPrimitiveCond_false (v : JSValue) (h : jsIsPrimitive v = true) :
    (jsTruthy v && jsTypeof v == "object") = false := by
  cases v
  case null => rfl
  case bool b => simp [jsTruthy, jsTypeof]
  case num q => simp [jsTruthy, jsTypeof]
  case str s => simp [jsTruthy, jsTypeof]
  case arr l => simp [jsIsPrimitive] at h
  case obj l => simp [jsIsPrimitive] at h

theorem networkConfigStage_primitive (v : JSValue) (h : jsIsPrimitive v = true) :
    networkConfigStage (some v) = .ok none := by
  simp only [networkConfigStage, jsTruthyOpt, jsTypeofOpt]
  simp only [jsPrimitiveCond_false v h, Bool.false_eq_true, if_false]
  rfl

theorem dataplaneConfigStage_primitive (v : JSValue) (h : jsIsPrimitive v = true) :
    dataplaneConfigStage (some v) = none := by
  simp only [dataplaneConfigStage, jsTruthyOpt, jsTypeofOpt]
  simp [jsPrimitiveCond_false v h]

theorem testImageryConfigStage_primitive (v : JSValue) (h : jsIsPrimitive v = true)
    (dit : Bool) : testImageryConfigStage (some v) dit = none := by
  cases dit
  · rfl
  · simp only [testImageryConfigStage]
    simp [jsPrimitiveCond_false v h]

theorem testConfigStage_primitive (v : JSValue) (h : jsIsPrimitive v = true)
    (dit : Bool) : testConfigStage (some v) dit = none := by
  cases dit
  · rfl
  · simp only [testConfigStage]
    simp [jsPrimitiveCond_false v h]

/-! ### Claim C5 (integration-test gate) -/

/-- C5: whenever `deployIntegrationTests` is explicitly `false`, a successful
load returns `testImageryConfig` and `testConfig` both absent, regardless of
what the raw JSON supplied for those keys. -/
theorem claim_C5 (f : List (String × JSValue)) (r : DeploymentConfig)
    (hdit : jsLookup f "deployIntegrationTests" = some (.bool false))
    (h : loadDeploymentConfigFromValue (.obj f) = .ok r) :
    r.testImageryConfig = none ∧ r.testConfig = none := by
  obtain ⟨pn, a, nc, dit, hpn, ha, hnc, hd, hr⟩ := loadFromValue_ok_inv _ _ h
  simp only [getField] at hd
  rw [hdit] at hd
  rw [show deployIntegrationTestsStage (some (JSValue.bool false)) = .ok false from rfl]
    at hd
  injection hd with h2
  rw [hr, ← h2]
  exact ⟨rfl, rfl⟩

/-- C5 witness: the theorem applied to a configuration that sets the gate to
`false` and still supplies a `testConfig` object. -/
theorem claim_C5_witness :
    (⟨"demo", ⟨"123456789012", "us-west-2", true, false⟩, none, none, false,
      none, none⟩ : DeploymentConfig).testImageryConfig = none ∧
    (⟨"demo", ⟨"123456789012", "us-west-2", true, false⟩, none, none, false,
      none, none⟩ : DeploymentConfig).testConfig = none :=
  claim_C5
    [("projectName", .str "demo"),
     ("account", .obj [("id", .str "123456789012"), ("region", .str "us-west-2"),
                       ("prodLike", .bool true)]),
     ("deployIntegrationTests", .bool false),
     ("testConfig", .obj [("BUILD_FROM_SOURCE", .bool true)])]
    _ rfl rfl

/-! ### Claim C6 (minimal configuration and isAdc default) -/

/-- C6: every minimal valid configuration supplying only `projectName` and an
`account` with `id`, `region` and `prodLike` loads successfully with
`isAdc = false`, `deployIntegrationTests = true` and `networkConfig` absent;
and omitting `account.isAdc` always yields `false` in the result. -/
theorem claim_C6 :
    (∀ pn idS regS : String, ∀ b : Bool,
      jsTrim pn ≠ "" →
      accountIdPattern (jsTrim idS) = true →
      regionPattern (jsTrim regS) = true →
      loadDeploymentConfigFromValue (.obj [("projectName", .str pn),
        ("account", .obj [("id", .str idS), ("region", .str regS),
                          ("prodLike", .bool b)])]) =
        .ok ⟨jsTrim pn, ⟨jsTrim idS, jsTrim regS, b, false⟩, none, none, true,
             none, none⟩) ∧
    (∀ f af : List (String × JSValue), ∀ r : DeploymentConfig,
      jsLookup f "account" = some (.obj af) →
      jsLookup af "isAdc" = none →
      loadDeploymentConfigFromValue (.obj f) = .ok r →
      r.account.isAdc = false) := by
  constructor
  · intro pn idS regS b hpn hid hreg
    simp only [loadDeploymentConfigFromValue]
    rw [if_neg (by simp [jsTruthy, jsTypeof])]
    rw [show getField (JSValue.obj [("projectName", .str pn),
          ("account", .obj [("id", .str idS), ("region", .str regS),
                            ("prodLike", .bool b)])]) "projectName"
          = some (.str pn) from rfl]
    rw [projectNameStage_str pn hpn, exceptBind_ok]
    rw [show getField (JSValue.obj [("projectName", .str pn),
          ("account", .obj [("id", .str idS), ("region", .str regS),
                            ("prodLike", .bool b)])]) "account"
          = some (.obj [("id", .str idS), ("region", .str regS),
                        ("prodLike", .bool b)]) from rfl]
    rw [accountStage_eval idS regS b hid hreg, exceptBind_ok]
    rw [show getField (JSValue.obj [("projectName", .str pn),
          ("account", .obj [("id", .str idS), ("region", .str regS),
                            ("prodLike", .bool b)])]) "networkConfig"
          = none from rfl]
    rw [networkConfigStage_none, exceptBind_ok]
    rfl
  · intro f af r hacc hisadc h
    obtain ⟨pn, a, nc, dit, hpn, ha, hnc, hd, hr⟩ := loadFromValue_ok_inv _ _ h
    simp only [getField] at ha
    rw [hacc] at ha
    simp only [accountStage] at ha
    rw [if_neg (by simp [jsTruthyOpt, jsTruthy, jsTypeofOpt, jsTypeof])] at ha
    simp only [Option.getD] at ha
    obtain ⟨idT, h1, ha⟩ := exceptBind_ok_eq _ _ _ ha
    obtain ⟨accId, h2, ha⟩ := exceptBind_ok_eq _ _ _ ha
    obtain ⟨regT, h3, ha⟩ := exceptBind_ok_eq _ _ _ ha
    obtain ⟨reg, h4, ha⟩ := exceptBind_ok_eq _ _ _ ha
    obtain ⟨pl, h5, ha⟩ := exceptBind_ok_eq _ _ _ ha
    obtain ⟨adc, h6, ha⟩ := exceptMap_ok_eq _ _ _ ha
    simp only [getField] at h6
    rw [hisadc] at h6
    rw [show validateBooleanField none "account.isAdc" false (some false)
          = .ok false from rfl] at h6
    injection h6 with h7
    rw [hr]
    show a.isAdc = false
    rw [← ha, ← h7]

/-- C6 witness: the theorem applied to the minimal configuration
`projectName = "demo"`, `account = ⟨"123456789012", "us-west-2", true⟩`,
and the omitted-isAdc part applied to the same configuration. -/
theorem claim_C6_witness :
    loadDeploymentConfigFromValue (.obj [("projectName", .str "demo"),
      ("account", .obj [("id", .str "123456789012"),
                        ("region", .str "us-west-2"),
                        ("prodLike", .bool true)])]) =
      .ok ⟨jsTrim "demo", ⟨jsTrim "123456789012", jsTrim "us-west-2", true, false⟩,
           none, none, true, none, none⟩ ∧
    (⟨"demo", ⟨"123456789012", "us-west-2", true, false⟩, none, none, true,
      none, none⟩ : DeploymentConfig).account.isAdc = false :=
  ⟨claim_C6.1 "demo" "123456789012" "us-west-2" true (by decide) (by decide)
     (by decide),
   claim_C6.2 [("projectName", .str "demo"),
     ("account", .obj [("id", .str "123456789012"),
                       ("region", .str "us-west-2"),
                       ("prodLike", .bool true)])]
     [("id", .str "123456789012"), ("region", .str "us-west-2"),
      ("prodLike", .bool true)]
     _ rfl rfl rfl⟩

theorem testImageryConfigStage_none (dit : Bool) :
    testImageryConfigStage none dit = none := by cases dit <;> rfl

theorem testConfigStage_none (dit : Bool) :
    testConfigStage none dit = none := by cases dit <;> rfl

theorem dataplaneConfigStage_none : dataplaneConfigStage none = none := rfl

/-! ### Claim C9 (non-object section values are silently ignored) -/

/-- C9: when a top-level `networkConfig`, `dataplaneConfig`,
`testImageryConfig` or `testConfig` key holds a primitive (string, number,
boolean, or null), the loader does not fail on that key: it behaves exactly
as if the key were absent, and the corresponding field of a successful
result is absent. -/
theorem claim_C9 (f1 f2 : List (String × JSValue)) (key : String) (v : JSValue)
    (hkey : key = "networkConfig" ∨ key = "dataplaneConfig" ∨
            key = "testImageryConfig" ∨ key = "testConfig")
    (hprim : jsIsPrimitive v = true)
    (hl1 : jsLookup f1 key = some v)
    (hl2 : jsLookup f2 key = none)
    (hother : ∀ k, k ≠ key → jsLookup f1 k = jsLookup f2 k) :
    loadDeploymentConfigFromValue (.obj f1) = loadDeploymentConfigFromValue (.obj f2) ∧
    (∀ r, loadDeploymentConfigFromValue (.obj f1) = .ok r →
      (key = "networkConfig" → r.networkConfig = none) ∧
      (key = "dataplaneConfig" → r.dataplaneConfig = none) ∧
      (key = "testImageryConfig" → r.testImageryConfig = none) ∧
      (key = "testConfig" → r.testConfig = none)) := by
  rcases hkey with rfl | rfl | rfl | rfl
  · constructor
    · simp only [loadDeploymentConfigFromValue, getField]
      rw [if_neg (by simp [jsTruthy, jsTypeof]), if_neg (by simp [jsTruthy, jsTypeof])]
      rw [hl1, hl2, networkConfigStage_primitive v hprim, networkConfigStage_none]
      rw [hother "projectName" (by decide), hother "account" (by decide),
          hother "dataplaneConfig" (by decide),
          hother "deployIntegrationTests" (by decide),
          hother "testImageryConfig" (by decide), hother "testConfig" (by decide)]
    · intro r h
      obtain ⟨pn, a, nc, dit, hpn, ha, hnc, hd, hr⟩ := loadFromValue_ok_inv _ _ h
      simp only [getField] at hnc
      rw [hl1, networkConfigStage_primitive v hprim] at hnc
      injection hnc with h2
      refine ⟨fun _ => ?_, fun hk => absurd hk (by decide),
              fun hk => absurd hk (by decide), fun hk => absurd hk (by decide)⟩
      rw [hr]
      exact h2.symm
  · constructor
    · simp only [loadDeploymentConfigFromValue, getField]
      rw [if_neg (by simp [jsTruthy, jsTypeof]), if_neg (by simp [jsTruthy, jsTypeof])]
      rw [hl1, hl2, dataplaneConfigStage_primitive v hprim, dataplaneConfigStage_none]
      rw [hother "projectName" (by decide), hother "account" (by decide),
          hother "networkConfig" (by decide),
          hother "deployIntegrationTests" (by decide),
          hother "testImageryConfig" (by decide), hother "testConfig" (by decide)]
    · intro r h
      obtain ⟨pn, a, nc, dit, hpn, ha, hnc, hd, hr⟩ := loadFromValue_ok_inv _ _ h
      refine ⟨fun hk => absurd hk (by decide), fun _ => ?_,
              fun hk => absurd hk (by decide), fun hk => absurd hk (by decide)⟩
      rw [hr]
      show dataplaneConfigStage (getField (.obj f1) "dataplaneConfig") = none
      simp only [getField]
      rw [hl1]
      exact dataplaneConfigStage_primitive v hprim
  · constructor
    · simp only [loadDeploymentConfigFromValue, getField]
      rw [if_neg (by simp [jsTruthy, jsTypeof]), if_neg (by simp [jsTruthy, jsTypeof])]
      rw [hl1, hl2]
      simp only [testImageryConfigStage_primitive v hprim, testImageryConfigStage_none]
      rw [hother "projectName" (by decide), hother "account" (by decide),
          hother "networkConfig" (by decide), hother "dataplaneConfig" (by decide),
          hother "deployIntegrationTests" (by decide), hother "testConfig" (by decide)]
    · intro r h
      obtain ⟨pn, a, nc, dit, hpn, ha, hnc, hd, hr⟩ := loadFromValue_ok_inv _ _ h
      refine ⟨fun hk => absurd hk (by decide), fun hk => absurd hk (by decide),
              fun _ => ?_, fun hk => absurd hk (by decide)⟩
      rw [hr]
      show testImageryConfigStage (getField (.obj f1) "testImageryConfig") dit = none
      simp only [getField]
      rw [hl1]
      exact testImageryConfigStage_primitive v hprim dit
  · constructor
    · simp only [loadDeploymentConfigFromValue, getField]
      rw [if_neg (by simp [jsTruthy, jsTypeof]), if_neg (by simp [jsTruthy, jsTypeof])]
      rw [hl1, hl2]
      simp only [testConfigStage_primitive v hprim, testConfigStage_none]
      rw [hother "projectName" (by decide), hother "account" (by decide),
          hother "networkConfig" (by decide), hother "dataplaneConfig" (by decide),
          hother "deployIntegrationTests" (by decide),
          hother "testImageryConfig" (by decide)]
    · intro r h
      obtain ⟨pn, a, nc, dit, hpn, ha, hnc, hd, hr⟩ := loadFromValue_ok_inv _ _ h
      refine ⟨fun hk => absurd hk (by decide), fun hk => absurd hk (by decide),
              fun hk => absurd hk (by decide), fun _ => ?_⟩
      rw [hr]
      show testConfigStage (getField (.obj f1) "testConfig") dit = none
      simp only [getField]
      rw [hl1]
      exact testConfigStage_primitive v hprim dit

/-- C9 witness: the theorem applied to a configuration whose `networkConfig`
is the string `"nope"`, compared against the same configuration without the
key. -/
theorem claim_C9_witness :
    loadDeploymentConfigFromValue (.obj [("projectName", .str "demo"),
      ("account", .obj [("id", .str "123456789012"),
                        ("region", .str "us-west-2"), ("prodLike", .bool true)]),
      ("networkConfig", .str "nope")]) =
    loadDeploymentConfigFromValue (.obj [("projectName", .str "demo"),
      ("account", .obj [("id", .str "123456789012"),
                        ("region", .str "us-west-2"), ("prodLike", .bool true)])]) :=
  (claim_C9
    [("projectName", .str "demo"),
     ("account", .obj [("id", .str "123456789012"),
                       ("region", .str "us-west-2"), ("prodLike", .bool true)]),
     ("networkConfig", .str "nope")]
    [("projectName", .str "demo"),
     ("account", .obj [("id", .str "123456789012"),
                       ("region", .str "us-west-2"), ("prodLike", .bool true)])]
    "networkConfig" (.str "nope") (Or.inl rfl) rfl rfl rfl
    (by
      intro k hk
      have hne : ("networkConfig" == k) = false := by
        rw [beq_eq_false_iff_ne]
        exact fun he => hk he.symm
      simp [jsLookup, List.find?, hne])).1

/-! ### Claim C1 (VPC_ID requires TARGET_SUBNETS) -/

theorem hexIdPattern_vpc_ne_empty (s : String)
    (h : hexIdPattern "vpc-".data s.data = true) : s ≠ "" := by
  intro he
  rw [he] at h
  exact absurd h (by decide)

theorem hexIdPattern_sg_ne_empty (s : String)
    (h : hexIdPattern "sg-".data s.data = true) : s ≠ "" := by
  intro he
  rw [he] at h
  exact absurd h (by decide)

theorem vpcIdCheck_ok (nfs : List (String × JSValue)) (s : String)
    (hvpc : jsLookup nfs "VPC_ID" = some (.str s))
    (hpat : hexIdPattern "vpc-".data (jsTrim s).data = true) :
    vpcIdCheck (.obj nfs) = .ok () := by
  have hne : jsTrim s ≠ "" := hexIdPattern_vpc_ne_empty (jsTrim s) hpat
  simp only [vpcIdCheck, getField]
  rw [hvpc]
  simp [validateStringField_str_ok s "networkConfig.VPC_ID" true hne,
        exceptBind_ok, exceptMap_ok, validateVpcId, hpat]

theorem securityGroupIdCheck_ok (nfs : List (String × JSValue))
    (hsg : jsLookup nfs "SECURITY_GROUP_ID" = none ∨
           ∃ t, jsLookup nfs "SECURITY_GROUP_ID" = some (.str t) ∧
                hexIdPattern "sg-".data (jsTrim t).data = true) :
    securityGroupIdCheck (.obj nfs) = .ok () := by
  rcases hsg with h | ⟨t, h, hpat⟩
  · simp only [securityGroupIdCheck, getField]
    rw [h]
    rfl
  · have hne : jsTrim t ≠ "" := hexIdPattern_sg_ne_empty (jsTrim t) hpat
    simp only [securityGroupIdCheck, getField]
    rw [h]
    simp [validateStringField_str_ok t "networkConfig.SECURITY_GROUP_ID" true hne,
          exceptBind_ok, exceptMap_ok, validateSecurityGroupId, hpat]

theorem targetSubnetsCheck_none (nfs : List (String × JSValue))
    (hts : jsLookup nfs "TARGET_SUBNETS" = none) :
    targetSubnetsCheck (.obj nfs) = .ok () := by
  simp only [targetSubnetsCheck, getField]
  rw [hts]
  rfl

theorem targetSubnetsCheck_empty (nfs : List (String × JSValue))
    (hts : jsLookup nfs "TARGET_SUBNETS" = some (.arr [])) :
    targetSubnetsCheck (.obj nfs) = .ok () := by
  simp only [targetSubnetsCheck, getField]
  rw [hts]
  rfl

theorem targetSubnetsCheck_nonarray (nfs : List (String × JSValue)) (w : JSValue)
    (hts : jsLookup nfs "TARGET_SUBNETS" = some w)
    (hw : jsIsArrayOpt (some w) = false) :
    targetSubnetsCheck (.obj nfs) =
      .error ⟨"Field 'networkConfig.TARGET_SUBNETS' must be an array",
              some "networkConfig.TARGET_SUBNETS"⟩ := by
  simp only [targetSubnetsCheck, getField]
  rw [hts]
  cases w
  case arr l => simp [jsIsArrayOpt] at hw
  all_goals rfl

theorem vpcSubnetsCrossCheck_error (nfs : List (String × JSValue)) (s : String)
    (hvpc : jsLookup nfs "VPC_ID" = some (.str s)) (hsne : s ≠ "")
    (hts : jsLookup nfs "TARGET_SUBNETS" = none ∨
           jsLookup nfs "TARGET_SUBNETS" = some (.arr [])) :
    vpcSubnetsCrossCheck (.obj nfs) =
      .error ⟨"When VPC_ID is provided, TARGET_SUBNETS must also be specified with at least one subnet ID",
              some "networkConfig.TARGET_SUBNETS"⟩ := by
  have hbe : (s == "") = false := by rw [beq_eq_false_iff_ne]; exact hsne
  rcases hts with h | h <;>
    simp [vpcSubnetsCrossCheck, getField, hvpc, h, jsTruthy, jsTruthyOpt,
          jsIsArrayOpt, jsArrayLengthOpt, hbe]

theorem networkStage_missing_subnets (nfs : List (String × JSValue)) (s : String)
    (hvpc : jsLookup nfs "VPC_ID" = some (.str s))
    (hpat : hexIdPattern "vpc-".data (jsTrim s).data = true)
    (hsg : jsLookup nfs "SECURITY_GROUP_ID" = none ∨
           ∃ t, jsLookup nfs "SECURITY_GROUP_ID" = some (.str t) ∧
                hexIdPattern "sg-".data (jsTrim t).data = true)
    (hts : jsLookup nfs "TARGET_SUBNETS" = none ∨
           jsLookup nfs "TARGET_SUBNETS" = some (.arr []) ∨
           ∃ w, jsLookup nfs "TARGET_SUBNETS" = some w ∧
                jsIsArrayOpt (some w) = false) :
    ∃ e, networkConfigStage (some (.obj nfs)) = .error e ∧
      strContainsSub e.message "TARGET_SUBNETS" = true ∧
      (jsLookup nfs "TARGET_SUBNETS" = none →
        strContainsSub e.message "TARGET_SUBNETS must also be specified" = true) := by
  have hne : jsTrim s ≠ "" := hexIdPattern_vpc_ne_empty (jsTrim s) hpat
  have hsne : s ≠ "" := jsTrim_ne_empty s hne
  have h1 : vpcIdCheck (.obj nfs) = .ok () := vpcIdCheck_ok nfs s hvpc hpat
  have h3 : securityGroupIdCheck (.obj nfs) = .ok () := securityGroupIdCheck_ok nfs hsg
  rcases hts with hts | hts | ⟨w, hts, hw⟩
  · have h2 := targetSubnetsCheck_none nfs hts
    have h4 := vpcSubnetsCrossCheck_error nfs s hvpc hsne (Or.inl hts)
    refine ⟨⟨"When VPC_ID is provided, TARGET_SUBNETS must also be specified with at least one subnet ID",
             some "networkConfig.TARGET_SUBNETS"⟩, ?_, by decide, fun _ => by decide⟩
    simp only [networkConfigStage]
    rw [if_pos (show (jsTruthyOpt (some (JSValue.obj nfs)) &&
          jsTypeofOpt (some (JSValue.obj nfs)) == "object") = true from rfl)]
    simp only [Option.getD]
    rw [h1, exceptBind_ok, h2, exceptBind_ok, h3, exceptBind_ok, h4]
    rfl
  · have h2 := targetSubnetsCheck_empty nfs hts
    have h4 := vpcSubnetsCrossCheck_error nfs s hvpc hsne (Or.inr hts)
    refine ⟨⟨"When VPC_ID is provided, TARGET_SUBNETS must also be specified with at least one subnet ID",
             some "networkConfig.TARGET_SUBNETS"⟩, ?_, by decide, fun _ => by decide⟩
    simp only [networkConfigStage]
    rw [if_pos (show (jsTruthyOpt (some (JSValue.obj nfs)) &&
          jsTypeofOpt (some (JSValue.obj nfs)) == "object") = true from rfl)]
    simp only [Option.getD]
    rw [h1, exceptBind_ok, h2, exceptBind_ok, h3, exceptBind_ok, h4]
    rfl
  · have h2 := targetSubnetsCheck_nonarray nfs w hts hw
    refine ⟨⟨"Field 'networkConfig.TARGET_SUBNETS' must be an array",
             some "networkConfig.TARGET_SUBNETS"⟩, ?_, by decide, fun habs => ?_⟩
    · simp only [networkConfigStage]
      rw [if_pos (show (jsTruthyOpt (some (JSValue.obj nfs)) &&
            jsTypeofOpt (some (JSValue.obj nfs)) == "object") = true from rfl)]
      simp only [Option.getD]
      rw [h1, exceptBind_ok, h2]
      rfl
    · exact absurd (hts.symm.trans habs) (by simp)

/-- C1 counterexample: with `networkConfig.VPC_ID` present (value `"bad"`)
and `TARGET_SUBNETS` absent, loading fails, but the error message is the
VPC-format error and does not mention `TARGET_SUBNETS` — refuting the claim
as stated for arbitrary present `VPC_ID` values. -/
theorem claim_C1_counterexample :
    loadDeploymentConfigFromValue (.obj [("projectName", .str "demo"),
      ("account", .obj [("id", .str "123456789012"),
                        ("region", .str "us-west-2"), ("prodLike", .bool true)]),
      ("networkConfig", .obj [("VPC_ID", .str "bad")])]) =
      .error ⟨"Invalid VPC ID format: 'bad'. Must start with 'vpc-' followed by 8 or 17 hexadecimal characters.",
              some "config.targetVpcId"⟩ ∧
    strContainsSub
      "Invalid VPC ID format: 'bad'. Must start with 'vpc-' followed by 8 or 17 hexadecimal characters."
      "TARGET_SUBNETS" = false := by
  constructor
  · rfl
  · decide

/-- C1 amended: for every configuration that passes the top-level,
`projectName` and `account` validations and whose `networkConfig` object's
`VPC_ID` is a string passing VPC-format validation, whose
`SECURITY_GROUP_ID` (when present) is a string passing security-group-format
validation, and whose `TARGET_SUBNETS` is absent, an empty array, or not an
array, `loadDeploymentConfig` fails and the thrown error's message mentions
`TARGET_SUBNETS`; in particular, when `TARGET_SUBNETS` is absent the message
contains `"TARGET_SUBNETS must also be specified"`. -/
theorem claim_C1 (f nfs : List (String × JSValue)) (pn : String)
    (a : AccountInfo) (s : String)
    (hpn : projectNameStage (jsLookup f "projectName") = .ok pn)
    (ha : accountStage (jsLookup f "account") = .ok a)
    (hnet : jsLookup f "networkConfig" = some (.obj nfs))
    (hvpc : jsLookup nfs "VPC_ID" = some (.str s))
    (hpat : hexIdPattern "vpc-".data (jsTrim s).data = true)
    (hsg : jsLookup nfs "SECURITY_GROUP_ID" = none ∨
           ∃ t, jsLookup nfs "SECURITY_GROUP_ID" = some (.str t) ∧
                hexIdPattern "sg-".data (jsTrim t).data = true)
    (hts : jsLookup nfs "TARGET_SUBNETS" = none ∨
           jsLookup nfs "TARGET_SUBNETS" = some (.arr []) ∨
           ∃ w, jsLookup nfs "TARGET_SUBNETS" = some w ∧
                jsIsArrayOpt (some w) = false) :
    ∃ e, loadDeploymentConfigFromValue (.obj f) = .error e ∧
      strContainsSub e.message "TARGET_SUBNETS" = true ∧
      (jsLookup nfs "TARGET_SUBNETS" = none →
        strContainsSub e.message "TARGET_SUBNETS must also be specified" = true) := by
  obtain ⟨e, hse, hc1, hc2⟩ := networkStage_missing_subnets nfs s hvpc hpat hsg hts
  refine ⟨e, ?_, hc1, hc2⟩
  simp only [loadDeploymentConfigFromValue, getField]
  rw [if_neg (by simp [jsTruthy, jsTypeof])]
  rw [hpn, exceptBind_ok, ha, exceptBind_ok, hnet, hse]
  rfl

/-- C1 witness: the amended theorem applied to a configuration with the
valid `VPC_ID = "vpc-12345678"` and no `TARGET_SUBNETS`. -/
theorem claim_C1_witness :
    ∃ e, loadDeploymentConfigFromValue (.obj [("projectName", .str "demo"),
      ("account", .obj [("id", .str "123456789012"),
                        ("region", .str "us-west-2"), ("prodLike", .bool true)]),
      ("networkConfig", .obj [("VPC_ID", .str "vpc-12345678")])]) = .error e ∧
      strContainsSub e.message "TARGET_SUBNETS" = true ∧
      (jsLookup [("VPC_ID", JSValue.str "vpc-12345678")] "TARGET_SUBNETS" = none →
        strContainsSub e.message "TARGET_SUBNETS must also be specified" = true) :=
  claim_C1
    [("projectName", .str "demo"),
     ("account", .obj [("id", .str "123456789012"),
                       ("region", .str "us-west-2"), ("prodLike", .bool true)]),
     ("networkConfig", .obj [("VPC_ID", .str "vpc-12345678")])]
    [("VPC_ID", .str "vpc-12345678")]
    "demo" ⟨"123456789012", "us-west-2", true, false⟩ "vpc-12345678"
    rfl rfl rfl rfl (by decide) (Or.inl rfl) (Or.inl rfl)
